import Mathlib

/-!
# Verification of the drand beacon verifier (`src/verify.rs`, `src/scheme.rs`)

Shallow embedding of the beacon-verification logic of `drand-client-rs`.
Byte strings are `List Nat` (each entry a byte value), the `u64` round number
is a `Nat` reduced modulo `2^64` where the 8-byte big-endian encoding is taken.

The cryptographic primitives supplied by the external crates `sha2` and
`bls12_381` (SHA-256, point decompression, on-curve / identity tests,
hash-to-curve, and the two-factor Miller loop + final exponentiation compared
against the identity of `Gt`) are not code of this repository; they are
abstracted as the fields of a `BlsApi` structure over abstract point types
`G1` and `G2`, and every theorem quantifies over that structure.  The control
flow of the repository's functions is translated line by line.
-/

namespace DrandClient

/-- The four supported scheme identifiers (`enum SchemeID` in `src/verify.rs`,
duplicated in `src/scheme.rs`). -/
inductive SchemeID where
  | PedersenBlsChained
  | PedersenBlsUnchained
  | UnchainedOnG1
  | UnchainedOnG1RFC9380
deriving DecidableEq, Repr

/-- The closed error taxonomy (`enum VerificationError` in `src/verify.rs`). -/
inductive VerificationError where
  | ChainedBeaconNeedsPreviousSignature
  | InvalidSignatureLength
  | InvalidPublicKey
  | EmptyMessage
  | SignatureFailedVerification
  | InvalidRandomness
deriving DecidableEq, Repr

/-- `struct Beacon` of `src/verify.rs` (identical in `src/scheme.rs`):
round number plus three byte-string fields. -/
structure Beacon where
  round_number : Nat
  randomness : List Nat
  signature : List Nat
  previous_signature : List Nat
deriving DecidableEq, Repr

/-- `u64::to_be_bytes`: the 8-byte big-endian encoding of a 64-bit value. -/
def u64ToBeBytes (n : Nat) : List Nat :=
  [n % 2 ^ 64 / 2 ^ 56, n % 2 ^ 56 / 2 ^ 48, n % 2 ^ 48 / 2 ^ 40,
   n % 2 ^ 40 / 2 ^ 32, n % 2 ^ 32 / 2 ^ 24, n % 2 ^ 24 / 2 ^ 16,
   n % 2 ^ 16 / 2 ^ 8, n % 2 ^ 8]

/-- The external cryptographic primitives used by `src/verify.rs`, abstracted
over the point types `G1` and `G2` of the two source groups of BLS12-381.

* `sha256` is `sha2::Sha256::digest` producing a byte vector;
* `g1FromCompressed`/`g2FromCompressed` are `G1Affine::from_compressed` /
  `G2Affine::from_compressed` on a byte array of the exact compressed size
  (`none` models a `CtOption` holding no point);
* `g1IsOnCurve`, `g1IsIdentity` (and the `g2` twins) model
  `is_on_curve().unwrap_u8() == 1` and `is_identity().unwrap_u8() == 1`;
* `hashToG1`/`hashToG2` model RFC-9380 `hash_to_curve` on a message and the
  UTF-8 bytes of a domain-separation-tag string;
* `pairingSigOnG2 p m q` models
  `multi_miller_loop([(-p, m), (G1::generator, q)]).final_exponentiation() == Gt::identity()`;
* `pairingSigOnG1 pk m s` models
  `multi_miller_loop([(m, -pk), (s, G2::generator)]).final_exponentiation() == Gt::identity()`. -/
structure BlsApi (G1 G2 : Type) where
  sha256 : List Nat → List Nat
  g1FromCompressed : List Nat → Option G1
  g2FromCompressed : List Nat → Option G2
  g1Identity : G1
  g2Identity : G2
  g1IsOnCurve : G1 → Bool
  g2IsOnCurve : G2 → Bool
  g1IsIdentity : G1 → Bool
  g2IsIdentity : G2 → Bool
  hashToG1 : List Nat → String → G1
  hashToG2 : List Nat → String → G2
  pairingSigOnG2 : G1 → G2 → G2 → Bool
  pairingSigOnG1 : G2 → G1 → G1 → Bool

/-- `const DST_G1` of `src/verify.rs` (same literal in `src/scheme.rs`). -/
def DST_G1 : String := "BLS_SIG_BLS12381G1_XMD:SHA-256_SSWU_RO_NUL_"

/-- `const DST_G2` of `src/verify.rs` (same literal in `src/scheme.rs`). -/
def DST_G2 : String := "BLS_SIG_BLS12381G2_XMD:SHA-256_SSWU_RO_NUL_"

variable {G1 G2 : Type}

instance {ε α : Type _} [DecidableEq ε] [DecidableEq α] : DecidableEq (Except ε α) :=
  fun x y =>
    match x, y with
    | .error a, .error b =>
        if h : a = b then .isTrue (by rw [h]) else .isFalse (fun hc => h (Except.error.inj hc))
    | .error _, .ok _ => .isFalse (fun hc => nomatch hc)
    | .ok _, .error _ => .isFalse (fun hc => nomatch hc)
    | .ok a, .ok b =>
        if h : a = b then .isTrue (by rw [h]) else .isFalse (fun hc => h (Except.ok.inj hc))

/-- `verify_on_g2` of `src/verify.rs`: public key on G1 (48 bytes compressed),
signature on G2 (96 bytes compressed). -/
def verify_on_g2 (api : BlsApi G1 G2) (public_key message signature : List Nat)
    (domain_separation_tag : String) : Except VerificationError Unit :=
  if public_key.length ≠ 48 then .error .InvalidPublicKey
  else if signature.length ≠ 96 then .error .InvalidSignatureLength
  else
    let p := (api.g1FromCompressed public_key).getD api.g1Identity
    let q := (api.g2FromCompressed signature).getD api.g2Identity
    if api.g1IsOnCurve p ≠ true then .error .InvalidPublicKey
    else if api.g1IsIdentity p = true then .error .InvalidPublicKey
    else if message.isEmpty then .error .EmptyMessage
    else if signature.isEmpty then .error .InvalidSignatureLength
    else
      let m := api.hashToG2 message domain_separation_tag
      if api.pairingSigOnG2 p m q ≠ true then .error .SignatureFailedVerification
      else .ok ()

/-- `verify_on_g1` of `src/verify.rs`: public key on G2 (96 bytes compressed),
signature on G1 (48 bytes compressed). -/
def verify_on_g1 (api : BlsApi G1 G2) (public_key message signature : List Nat)
    (domain_separation_tag : String) : Except VerificationError Unit :=
  if public_key.length ≠ 96 then .error .InvalidPublicKey
  else if signature.length ≠ 48 then .error .InvalidSignatureLength
  else
    let signature_point := (api.g1FromCompressed signature).getD api.g1Identity
    let pubkey_point := (api.g2FromCompressed public_key).getD api.g2Identity
    if api.g2IsOnCurve pubkey_point ≠ true then .error .InvalidPublicKey
    else if api.g2IsIdentity pubkey_point = true then .error .InvalidPublicKey
    else if message.isEmpty then .error .EmptyMessage
    else if signature.isEmpty then .error .InvalidSignatureLength
    else
      let m := api.hashToG1 message domain_separation_tag
      if api.pairingSigOnG1 pubkey_point m signature_point ≠ true then
        .error .SignatureFailedVerification
      else .ok ()

/-- `unchained_beacon_message` of `src/verify.rs`:
`SHA-256(round_number.to_be_bytes())`, never an error. -/
def unchained_beacon_message (api : BlsApi G1 G2) (beacon : Beacon) :
    Except VerificationError (List Nat) :=
  .ok (api.sha256 (u64ToBeBytes beacon.round_number))

/-- `chained_beacon_message` of `src/verify.rs`: error on empty
`previous_signature`, otherwise `SHA-256(previous_signature ++ round_be_bytes)`. -/
def chained_beacon_message (api : BlsApi G1 G2) (beacon : Beacon) :
    Except VerificationError (List Nat) :=
  if beacon.previous_signature.isEmpty then
    .error .ChainedBeaconNeedsPreviousSignature
  else
    .ok (api.sha256 (beacon.previous_signature ++ u64ToBeBytes beacon.round_number))

/-- `verify_beacon` of `src/verify.rs`: the randomness digest check followed by
the per-scheme dispatch to the pairing checks. -/
def verify_beacon (api : BlsApi G1 G2) (scheme_id : SchemeID)
    (public_key : List Nat) (beacon : Beacon) : Except VerificationError Unit :=
  if api.sha256 beacon.signature ≠ beacon.randomness then
    .error .InvalidRandomness
  else
    match scheme_id with
    | .PedersenBlsChained =>
        match chained_beacon_message api beacon with
        | .error e => .error e
        | .ok msg => verify_on_g2 api public_key msg beacon.signature DST_G2
    | .PedersenBlsUnchained =>
        match unchained_beacon_message api beacon with
        | .error e => .error e
        | .ok msg => verify_on_g2 api public_key msg beacon.signature DST_G2
    | .UnchainedOnG1 =>
        match unchained_beacon_message api beacon with
        | .error e => .error e
        | .ok msg => verify_on_g1 api public_key msg beacon.signature DST_G2
    | .UnchainedOnG1RFC9380 =>
        match unchained_beacon_message api beacon with
        | .error e => .error e
        | .ok msg => verify_on_g1 api public_key msg beacon.signature DST_G1

/-- `SchemeID` deserialization (`impl Deserialize for SchemeID` in
`src/verify.rs`): the string tag is matched against the four accepted values;
any other tag produces `serde::de::Error::unknown_variant(s, expected)`, which
carries the offending tag and the list of the four accepted values. -/
def schemeIdFromString (s : String) : Except (String × List String) SchemeID :=
  if s = "pedersen-bls-chained" then .ok .PedersenBlsChained
  else if s = "pedersen-bls-unchained" then .ok .PedersenBlsUnchained
  else if s = "bls-unchained-on-g1" then .ok .UnchainedOnG1
  else if s = "bls-unchained-g1-rfc9380" then .ok .UnchainedOnG1RFC9380
  else .error (s, ["pedersen-bls-chained", "pedersen-bls-unchained",
                   "bls-unchained-on-g1", "bls-unchained-g1-rfc9380"])

/-- The error type of the legacy verifier in `src/scheme.rs`.  There the
message-derivation helpers fail with `&str` messages while the pairing checks
it calls (`verify_on_g1`/`verify_on_g2` of `src/verify.rs`) fail with
`VerificationError`; the sum keeps both. -/
inductive SchemeError where
  | text : String → SchemeError
  | verif : VerificationError → SchemeError
deriving DecidableEq, Repr

namespace Scheme

/-- `unchained_beacon_message` of `src/scheme.rs`: unlike its namesake in
`src/verify.rs`, it rejects a non-empty `previous_signature`. -/
def unchained_beacon_message (api : BlsApi G1 G2) (beacon : Beacon) :
    Except SchemeError (List Nat) :=
  if beacon.previous_signature.length > 0 then
    .error (.text "unchained schemes cannot contain a `previous_signature`")
  else
    .ok (api.sha256 (u64ToBeBytes beacon.round_number))

/-- `chained_beacon_message` of `src/scheme.rs`. -/
def chained_beacon_message (api : BlsApi G1 G2) (beacon : Beacon) :
    Except SchemeError (List Nat) :=
  if beacon.previous_signature.length = 0 then
    .error (.text "chained beacons must have a `previous_signature`")
  else
    .ok (api.sha256 (beacon.previous_signature ++ u64ToBeBytes beacon.round_number))

/-- Lifts the result of the pairing checks of `src/verify.rs` into the error
type of `src/scheme.rs`. -/
def liftVerif : Except VerificationError Unit → Except SchemeError Unit
  | .error e => .error (.verif e)
  | .ok _ => .ok ()

/-- `verify_beacon` of `src/scheme.rs`: the per-scheme dispatch with NO
randomness digest check in front of it. -/
def verify_beacon (api : BlsApi G1 G2) (scheme_id : SchemeID)
    (public_key : List Nat) (beacon : Beacon) : Except SchemeError Unit :=
  match scheme_id with
  | .PedersenBlsChained =>
      match chained_beacon_message api beacon with
      | .error e => .error e
      | .ok msg => liftVerif (verify_on_g2 api public_key msg beacon.signature DST_G2)
  | .PedersenBlsUnchained =>
      match unchained_beacon_message api beacon with
      | .error e => .error e
      | .ok msg => liftVerif (verify_on_g2 api public_key msg beacon.signature DST_G2)
  | .UnchainedOnG1 =>
      match unchained_beacon_message api beacon with
      | .error e => .error e
      | .ok msg => liftVerif (verify_on_g1 api public_key msg beacon.signature DST_G2)
  | .UnchainedOnG1RFC9380 =>
      match unchained_beacon_message api beacon with
      | .error e => .error e
      | .ok msg => liftVerif (verify_on_g1 api public_key msg beacon.signature DST_G1)

end Scheme

/-! ## Concrete instances of the abstract primitives

These are used only to evaluate the theorems on explicit inputs.  They reflect
structural facts of the real `bls12_381` primitives that the concrete runs
depend on: the canonical compressed encoding of the identity decompresses to
the identity, the identity passes `is_on_curve`, and a pairing product whose
factors each contain an identity point equals the identity of `Gt`. -/

/-- The canonical 48-byte compressed encoding of the G1 identity
(`0xc0` followed by 47 zero bytes). -/
def g1IdentBytes : List Nat := 192 :: List.replicate 47 0

/-- The canonical 96-byte compressed encoding of the G2 identity
(`0xc0` followed by 95 zero bytes). -/
def g2IdentBytes : List Nat := 192 :: List.replicate 95 0

/-- Concrete primitives over `Bool` points, `true` playing the identity:
decompression recognises only the canonical identity encodings, every point
counts as on-curve (as in `bls12_381`, where the identity passes
`is_on_curve`), and the pairing products hold exactly when both decompressed
points are the identity — as they do in reality, since a pairing with an
identity argument is the identity of `Gt`. -/
def toyApi : BlsApi Bool Bool where
  sha256 := fun _ => List.replicate 32 0
  g1FromCompressed := fun b => if b = g1IdentBytes then some true else none
  g2FromCompressed := fun b => if b = g2IdentBytes then some true else none
  g1Identity := true
  g2Identity := true
  g1IsOnCurve := fun _ => true
  g2IsOnCurve := fun _ => true
  g1IsIdentity := fun p => p
  g2IsIdentity := fun p => p
  hashToG1 := fun _ _ => false
  hashToG2 := fun _ _ => false
  pairingSigOnG2 := fun p _ q => p && q
  pairingSigOnG1 := fun pk _ s => pk && s

/-- Concrete primitives over `Bool` points for the accepting runs: every byte
string of the right length decompresses to a non-identity point and the
pairing products hold. -/
def okApi : BlsApi Bool Bool where
  sha256 := fun _ => List.replicate 32 0
  g1FromCompressed := fun _ => some false
  g2FromCompressed := fun _ => some false
  g1Identity := true
  g2Identity := true
  g1IsOnCurve := fun _ => true
  g2IsOnCurve := fun _ => true
  g1IsIdentity := fun p => p
  g2IsIdentity := fun p => p
  hashToG1 := fun _ _ => false
  hashToG2 := fun _ _ => false
  pairingSigOnG2 := fun _ _ _ => true
  pairingSigOnG1 := fun _ _ _ => true

/-- Spec-side characterization of an accepting run of `verify_on_g2` (used by
the amended form of the acceptance claim): the public key is 48 bytes and
decompresses (with the decompression-failure-to-identity funnel) to an
on-curve, non-identity G1 point, the signature is 96 bytes, the message is
non-empty, and the sig-on-G2 pairing equation holds for the decompressed
points and the message hashed to G2 under the given tag. -/
def sigOnG2Accepts (api : BlsApi G1 G2) (pk msg sig : List Nat) (dst : String) : Prop :=
  pk.length = 48 ∧ sig.length = 96 ∧
  api.g1IsOnCurve ((api.g1FromCompressed pk).getD api.g1Identity) = true ∧
  api.g1IsIdentity ((api.g1FromCompressed pk).getD api.g1Identity) = false ∧
  msg ≠ [] ∧
  api.pairingSigOnG2 ((api.g1FromCompressed pk).getD api.g1Identity)
    (api.hashToG2 msg dst) ((api.g2FromCompressed sig).getD api.g2Identity) = true

/-- Spec-side characterization of an accepting run of `verify_on_g1`,
symmetric to `sigOnG2Accepts`: 96-byte key on G2, 48-byte signature on G1. -/
def sigOnG1Accepts (api : BlsApi G1 G2) (pk msg sig : List Nat) (dst : String) : Prop :=
  pk.length = 96 ∧ sig.length = 48 ∧
  api.g2IsOnCurve ((api.g2FromCompressed pk).getD api.g2Identity) = true ∧
  api.g2IsIdentity ((api.g2FromCompressed pk).getD api.g2Identity) = false ∧
  msg ≠ [] ∧
  api.pairingSigOnG1 ((api.g2FromCompressed pk).getD api.g2Identity)
    (api.hashToG1 msg dst) ((api.g1FromCompressed sig).getD api.g1Identity) = true

/-! ## Helper lemmas -/

/-- Characterization of the accepting runs of `verify_on_g2`. -/
theorem verify_on_g2_ok_iff (api : BlsApi G1 G2) (pk msg sig : List Nat) (dst : String) :
    verify_on_g2 api pk msg sig dst = .ok () ↔ sigOnG2Accepts api pk msg sig dst := by
  unfold verify_on_g2 sigOnG2Accepts
  split_ifs with h1 h2 h3 h4 <;> simp_all [List.isEmpty_iff] <;> split_ifs <;> simp_all

/-- Characterization of the accepting runs of `verify_on_g1`. -/
theorem verify_on_g1_ok_iff (api : BlsApi G1 G2) (pk msg sig : List Nat) (dst : String) :
    verify_on_g1 api pk msg sig dst = .ok () ↔ sigOnG1Accepts api pk msg sig dst := by
  unfold verify_on_g1 sigOnG1Accepts
  split_ifs with h1 h2 h3 h4 <;> simp_all [List.isEmpty_iff] <;> split_ifs <;> simp_all

/-- A 48-byte public key whose G1 decompression fails is funnelled to the
identity and rejected as `InvalidPublicKey` (assuming, as in `bls12_381`,
that the identity point answers `true` to `is_identity`). -/
theorem funnel_g2_decompression_failure (api : BlsApi G1 G2) (pk msg sig : List Nat)
    (dst : String) (h1 : pk.length = 48) (h2 : sig.length = 96)
    (h3 : api.g1FromCompressed pk = none) (h4 : api.g1IsIdentity api.g1Identity = true) :
    verify_on_g2 api pk msg sig dst = .error .InvalidPublicKey := by
  unfold verify_on_g2
  split_ifs <;> simp_all [List.isEmpty_iff]

/-- A 48-byte public key whose decoded-or-funnelled G1 point is the identity
is rejected as `InvalidPublicKey`. -/
theorem funnel_g2_identity_key (api : BlsApi G1 G2) (pk msg sig : List Nat)
    (dst : String) (h1 : pk.length = 48) (h2 : sig.length = 96)
    (h3 : api.g1IsIdentity ((api.g1FromCompressed pk).getD api.g1Identity) = true) :
    verify_on_g2 api pk msg sig dst = .error .InvalidPublicKey := by
  unfold verify_on_g2
  split_ifs <;> simp_all [List.isEmpty_iff]

/-- A 48-byte public key whose decoded-or-funnelled G1 point is off the curve
is rejected as `InvalidPublicKey`. -/
theorem funnel_g2_off_curve_key (api : BlsApi G1 G2) (pk msg sig : List Nat)
    (dst : String) (h1 : pk.length = 48) (h2 : sig.length = 96)
    (h3 : api.g1IsOnCurve ((api.g1FromCompressed pk).getD api.g1Identity) = false) :
    verify_on_g2 api pk msg sig dst = .error .InvalidPublicKey := by
  unfold verify_on_g2
  split_ifs <;> simp_all [List.isEmpty_iff]

/-- A correctly sized signature whose G2 decompression fails is NOT reported
through a decompression-specific error: it falls to the identity point and,
when the pairing at the identity fails, is rejected as
`SignatureFailedVerification`. -/
theorem funnel_g2_bad_signature (api : BlsApi G1 G2) (pk msg sig : List Nat)
    (dst : String) (h1 : pk.length = 48) (h2 : sig.length = 96)
    (h3 : api.g1IsOnCurve ((api.g1FromCompressed pk).getD api.g1Identity) = true)
    (h4 : api.g1IsIdentity ((api.g1FromCompressed pk).getD api.g1Identity) = false)
    (h5 : msg ≠ []) (h6 : api.g2FromCompressed sig = none)
    (h7 : api.pairingSigOnG2 ((api.g1FromCompressed pk).getD api.g1Identity)
      (api.hashToG2 msg dst) api.g2Identity = false) :
    verify_on_g2 api pk msg sig dst = .error .SignatureFailedVerification := by
  unfold verify_on_g2
  split_ifs <;> simp_all [List.isEmpty_iff]

/-- G1-orientation twin of `funnel_g2_decompression_failure`. -/
theorem funnel_g1_decompression_failure (api : BlsApi G1 G2) (pk msg sig : List Nat)
    (dst : String) (h1 : pk.length = 96) (h2 : sig.length = 48)
    (h3 : api.g2FromCompressed pk = none) (h4 : api.g2IsIdentity api.g2Identity = true) :
    verify_on_g1 api pk msg sig dst = .error .InvalidPublicKey := by
  unfold verify_on_g1
  split_ifs <;> simp_all [List.isEmpty_iff]

/-- G1-orientation twin of `funnel_g2_identity_key`. -/
theorem funnel_g1_identity_key (api : BlsApi G1 G2) (pk msg sig : List Nat)
    (dst : String) (h1 : pk.length = 96) (h2 : sig.length = 48)
    (h3 : api.g2IsIdentity ((api.g2FromCompressed pk).getD api.g2Identity) = true) :
    verify_on_g1 api pk msg sig dst = .error .InvalidPublicKey := by
  unfold verify_on_g1
  split_ifs <;> simp_all [List.isEmpty_iff]

/-- G1-orientation twin of `funnel_g2_off_curve_key`. -/
theorem funnel_g1_off_curve_key (api : BlsApi G1 G2) (pk msg sig : List Nat)
    (dst : String) (h1 : pk.length = 96) (h2 : sig.length = 48)
    (h3 : api.g2IsOnCurve ((api.g2FromCompressed pk).getD api.g2Identity) = false) :
    verify_on_g1 api pk msg sig dst = .error .InvalidPublicKey := by
  unfold verify_on_g1
  split_ifs <;> simp_all [List.isEmpty_iff]

/-- G1-orientation twin of `funnel_g2_bad_signature`. -/
theorem funnel_g1_bad_signature (api : BlsApi G1 G2) (pk msg sig : List Nat)
    (dst : String) (h1 : pk.length = 96) (h2 : sig.length = 48)
    (h3 : api.g2IsOnCurve ((api.g2FromCompressed pk).getD api.g2Identity) = true)
    (h4 : api.g2IsIdentity ((api.g2FromCompressed pk).getD api.g2Identity) = false)
    (h5 : msg ≠ []) (h6 : api.g1FromCompressed sig = none)
    (h7 : api.pairingSigOnG1 ((api.g2FromCompressed pk).getD api.g2Identity)
      (api.hashToG1 msg dst) api.g1Identity = false) :
    verify_on_g1 api pk msg sig dst = .error .SignatureFailedVerification := by
  unfold verify_on_g1
  split_ifs <;> simp_all [List.isEmpty_iff]

/-- A non-empty message never triggers the `EmptyMessage` branch of
`verify_on_g2`. -/
theorem verify_on_g2_never_empty_message (api : BlsApi G1 G2)
    (pk msg sig : List Nat) (dst : String) (h : msg ≠ []) :
    verify_on_g2 api pk msg sig dst ≠ .error .EmptyMessage := by
  unfold verify_on_g2
  split_ifs <;> simp_all [List.isEmpty_iff] <;> split_ifs <;> simp_all

/-- A non-empty message never triggers the `EmptyMessage` branch of
`verify_on_g1`. -/
theorem verify_on_g1_never_empty_message (api : BlsApi G1 G2)
    (pk msg sig : List Nat) (dst : String) (h : msg ≠ []) :
    verify_on_g1 api pk msg sig dst ≠ .error .EmptyMessage := by
  unfold verify_on_g1
  split_ifs <;> simp_all [List.isEmpty_iff] <;> split_ifs <;> simp_all

/-! ## Claim theorems -/

/-- C1 (counterexample to the claim as stated): with the canonical compressed
encoding of the G1 identity as public key and the compressed G2 identity as
signature, the randomness digest matches SHA-256 of the signature and the
sig-on-G2 pairing equation holds for the derived message and the decoded
points (a pairing product over identity points is the identity of Gt), yet
`verify_beacon` does not return Ok: it rejects with `InvalidPublicKey`.  So
acceptance is NOT equivalent to randomness-match plus the pairing equation. -/
theorem verify_beacon_iff_pairing_counterexample :
    toyApi.sha256 g2IdentBytes = List.replicate 32 0 ∧
    toyApi.pairingSigOnG2 ((toyApi.g1FromCompressed g1IdentBytes).getD toyApi.g1Identity)
      (toyApi.hashToG2 (toyApi.sha256 (u64ToBeBytes 1)) DST_G2)
      ((toyApi.g2FromCompressed g2IdentBytes).getD toyApi.g2Identity) = true ∧
    verify_beacon toyApi .PedersenBlsUnchained g1IdentBytes
      { round_number := 1, randomness := List.replicate 32 0,
        signature := g2IdentBytes, previous_signature := [] } =
      .error .InvalidPublicKey ∧
    (Except.error VerificationError.InvalidPublicKey : Except VerificationError Unit) ≠
      .ok () :=
  ⟨rfl, rfl, rfl, by decide⟩

/-- C1 (amended): `verify_beacon` returns Ok if and only if the randomness
equals SHA-256 of the signature AND all per-scheme checks succeed: the message
derivation succeeds (for the chained scheme, `previous_signature` is
non-empty), the public key has the scheme key length and decodes to an
on-curve non-identity point, the signature has the scheme signature length,
the derived message is non-empty, and the scheme-specific pairing equation
holds for the derived message, decoded public key, and decoded signature. -/
theorem verify_beacon_ok_characterization (api : BlsApi G1 G2) (scheme_id : SchemeID)
    (pk : List Nat) (b : Beacon) :
    verify_beacon api scheme_id pk b = .ok () ↔
      (api.sha256 b.signature = b.randomness ∧
        match scheme_id with
        | .PedersenBlsChained =>
            b.previous_signature ≠ [] ∧
            sigOnG2Accepts api pk
              (api.sha256 (b.previous_signature ++ u64ToBeBytes b.round_number))
              b.signature DST_G2
        | .PedersenBlsUnchained =>
            sigOnG2Accepts api pk (api.sha256 (u64ToBeBytes b.round_number)) b.signature DST_G2
        | .UnchainedOnG1 =>
            sigOnG1Accepts api pk (api.sha256 (u64ToBeBytes b.round_number)) b.signature DST_G2
        | .UnchainedOnG1RFC9380 =>
            sigOnG1Accepts api pk (api.sha256 (u64ToBeBytes b.round_number)) b.signature DST_G1) := by
  unfold verify_beacon
  split_ifs with hr
  · simp [hr]
  · push_neg at hr
    cases scheme_id
    · unfold chained_beacon_message
      split_ifs with hp
      · rw [List.isEmpty_iff] at hp
        simp [hp, hr]
      · rw [List.isEmpty_iff] at hp
        show verify_on_g2 api pk _ b.signature DST_G2 = .ok () ↔ _
        rw [verify_on_g2_ok_iff]
        simp [hr, hp]
    · show verify_on_g2 api pk _ b.signature DST_G2 = .ok () ↔ _
      rw [verify_on_g2_ok_iff]
      simp [hr]
    · show verify_on_g1 api pk _ b.signature DST_G2 = .ok () ↔ _
      rw [verify_on_g1_ok_iff]
      simp [hr]
    · show verify_on_g1 api pk _ b.signature DST_G1 = .ok () ↔ _
      rw [verify_on_g1_ok_iff]
      simp [hr]

/-- C1 witness: the amended characterization applied at a concrete accepting
input. -/
theorem verify_beacon_ok_characterization_witness :
    verify_beacon okApi .PedersenBlsUnchained (List.replicate 48 1)
      { round_number := 1, randomness := List.replicate 32 0,
        signature := List.replicate 96 2, previous_signature := [] } = .ok () :=
  (verify_beacon_ok_characterization okApi .PedersenBlsUnchained (List.replicate 48 1)
    { round_number := 1, randomness := List.replicate 32 0,
      signature := List.replicate 96 2, previous_signature := [] }).mpr
    ⟨by decide, by decide, by decide, by decide, by decide, by decide, by decide⟩

/-- C2: whenever SHA-256 of the signature differs from the randomness field,
`verify_beacon` returns exactly `InvalidRandomness` — for every scheme and
every instantiation of the cryptographic primitives, so no scheme-specific
check (chained `previous_signature` check or pairing) influences the result. -/
theorem verify_beacon_invalid_randomness_first (api : BlsApi G1 G2) (scheme_id : SchemeID)
    (pk : List Nat) (b : Beacon) (h : api.sha256 b.signature ≠ b.randomness) :
    verify_beacon api scheme_id pk b = .error .InvalidRandomness := by
  unfold verify_beacon
  rw [if_pos h]

/-- C2 witness: a chained beacon with empty `previous_signature` and tampered
randomness is still rejected as `InvalidRandomness`. -/
theorem verify_beacon_invalid_randomness_first_witness :
    verify_beacon toyApi .PedersenBlsChained []
      { round_number := 0, randomness := [1], signature := [], previous_signature := [] } =
      .error .InvalidRandomness :=
  verify_beacon_invalid_randomness_first toyApi .PedersenBlsChained [] _ (by decide)

/-- C3: for the three unchained schemes, `verify_beacon` (of `src/verify.rs`)
gives the same result on two beacons that differ only in
`previous_signature`; in particular a populated `previous_signature` is not
an error for unchained schemes. -/
theorem unchained_ignores_previous_signature (api : BlsApi G1 G2) (scheme_id : SchemeID)
    (h : scheme_id = .PedersenBlsUnchained ∨ scheme_id = .UnchainedOnG1 ∨
      scheme_id = .UnchainedOnG1RFC9380)
    (pk : List Nat) (b : Beacon) (ps : List Nat) :
    verify_beacon api scheme_id pk { b with previous_signature := ps } =
      verify_beacon api scheme_id pk b := by
  rcases h with h | h | h <;> subst h <;> rfl

/-- C3 witness: an unchained beacon carrying a stray 96-byte
`previous_signature` verifies exactly like the same beacon without it. -/
theorem unchained_ignores_previous_signature_witness :
    verify_beacon okApi .PedersenBlsUnchained (List.replicate 48 1)
      { round_number := 1, randomness := List.replicate 32 0,
        signature := List.replicate 96 2, previous_signature := List.replicate 96 7 } =
      verify_beacon okApi .PedersenBlsUnchained (List.replicate 48 1)
        { round_number := 1, randomness := List.replicate 32 0,
          signature := List.replicate 96 2, previous_signature := [] } :=
  unchained_ignores_previous_signature okApi .PedersenBlsUnchained (Or.inl rfl)
    (List.replicate 48 1)
    { round_number := 1, randomness := List.replicate 32 0,
      signature := List.replicate 96 2, previous_signature := [] }
    (List.replicate 96 7)

/-- C4: for the chained scheme, when the randomness digest matches, an empty
`previous_signature` yields `ChainedBeaconNeedsPreviousSignature`, and
otherwise the message handed to the pairing check is exactly
SHA-256(`previous_signature` concatenated with the 8-byte big-endian round). -/
theorem chained_beacon_dispatch (api : BlsApi G1 G2) (pk : List Nat) (b : Beacon)
    (h : api.sha256 b.signature = b.randomness) :
    (b.previous_signature = [] →
      verify_beacon api .PedersenBlsChained pk b =
        .error .ChainedBeaconNeedsPreviousSignature) ∧
    (b.previous_signature ≠ [] →
      verify_beacon api .PedersenBlsChained pk b =
        verify_on_g2 api pk
          (api.sha256 (b.previous_signature ++ u64ToBeBytes b.round_number))
          b.signature DST_G2) := by
  constructor
  · intro hps
    unfold verify_beacon chained_beacon_message
    rw [if_neg (not_not_intro h)]
    simp [hps]
  · intro hps
    unfold verify_beacon chained_beacon_message
    rw [if_neg (not_not_intro h)]
    simp [hps]

/-- C4 witness: both branches of the chained dispatch evaluated on concrete
beacons. -/
theorem chained_beacon_dispatch_witness :
    (verify_beacon toyApi .PedersenBlsChained []
      { round_number := 5, randomness := List.replicate 32 0,
        signature := [], previous_signature := [] } =
      .error .ChainedBeaconNeedsPreviousSignature) ∧
    (verify_beacon toyApi .PedersenBlsChained []
      { round_number := 5, randomness := List.replicate 32 0,
        signature := [], previous_signature := [3] } =
      verify_on_g2 toyApi []
        (toyApi.sha256 ([3] ++ u64ToBeBytes 5)) [] DST_G2) :=
  ⟨(chained_beacon_dispatch toyApi []
      { round_number := 5, randomness := List.replicate 32 0,
        signature := [], previous_signature := [] } (by decide)).1 rfl,
   (chained_beacon_dispatch toyApi []
      { round_number := 5, randomness := List.replicate 32 0,
        signature := [], previous_signature := [3] } (by decide)).2 (by decide)⟩

/-- C5 (counterexample to the claim as stated): when BOTH the public key and
the signature have wrong lengths, `verify_on_g2` returns `InvalidPublicKey`,
not `InvalidSignatureLength`, because the public-key length check fires
first; so "InvalidSignatureLength whenever the signature is not 96 bytes"
fails at this input. -/
theorem length_check_order_counterexample :
    verify_on_g2 toyApi [] [0] [] DST_G2 = .error .InvalidPublicKey ∧
    ([] : List Nat).length ≠ 96 ∧
    VerificationError.InvalidPublicKey ≠ VerificationError.InvalidSignatureLength :=
  ⟨rfl, by decide, by decide⟩

/-- C5 (amended): a wrong-length public key always yields `InvalidPublicKey`;
a wrong-length signature yields `InvalidSignatureLength` provided the public
key has the correct length (the key check precedes the signature check); and
these length checks hold for every instantiation of the primitives, i.e.
before any decompression, hashing, or pairing. -/
theorem length_checks_before_decompression (api : BlsApi G1 G2)
    (pk msg sig : List Nat) (dst : String) :
    (pk.length ≠ 48 → verify_on_g2 api pk msg sig dst = .error .InvalidPublicKey) ∧
    (pk.length = 48 → sig.length ≠ 96 →
      verify_on_g2 api pk msg sig dst = .error .InvalidSignatureLength) ∧
    (pk.length ≠ 96 → verify_on_g1 api pk msg sig dst = .error .InvalidPublicKey) ∧
    (pk.length = 96 → sig.length ≠ 48 →
      verify_on_g1 api pk msg sig dst = .error .InvalidSignatureLength) := by
  refine ⟨fun h => ?_, fun h1 h2 => ?_, fun h => ?_, fun h1 h2 => ?_⟩
  · unfold verify_on_g2
    rw [if_pos h]
  · unfold verify_on_g2
    rw [if_neg (not_not_intro h1), if_pos h2]
  · unfold verify_on_g1
    rw [if_pos h]
  · unfold verify_on_g1
    rw [if_neg (not_not_intro h1), if_pos h2]

/-- C5 witness: a 48-byte key with an empty signature is rejected as
`InvalidSignatureLength`. -/
theorem length_checks_before_decompression_witness :
    verify_on_g2 toyApi (List.replicate 48 0) [0] [] DST_G2 =
      .error .InvalidSignatureLength :=
  (length_checks_before_decompression toyApi (List.replicate 48 0) [0] [] DST_G2).2.1
    (by decide) (by decide)

/-- C6: in both pairing checks, a correctly sized public key that fails
decompression falls to the identity and is rejected as `InvalidPublicKey`
(first conjunct of each orientation); a key decoding to the identity or to an
off-curve point is rejected as `InvalidPublicKey` (second and third); and a
correctly sized signature that fails decompression gets no decompression
error — it falls to the identity point and, the pairing there failing, is
rejected as `SignatureFailedVerification` (fourth).  All conjuncts hold for
every instantiation of the pairing, so the key rejections happen before any
pairing is computed. -/
theorem decompression_identity_funnel (api : BlsApi G1 G2)
    (pk msg sig : List Nat) (dst : String) :
    (pk.length = 48 → sig.length = 96 → api.g1FromCompressed pk = none →
      api.g1IsIdentity api.g1Identity = true →
      verify_on_g2 api pk msg sig dst = .error .InvalidPublicKey) ∧
    (pk.length = 48 → sig.length = 96 →
      api.g1IsIdentity ((api.g1FromCompressed pk).getD api.g1Identity) = true →
      verify_on_g2 api pk msg sig dst = .error .InvalidPublicKey) ∧
    (pk.length = 48 → sig.length = 96 →
      api.g1IsOnCurve ((api.g1FromCompressed pk).getD api.g1Identity) = false →
      verify_on_g2 api pk msg sig dst = .error .InvalidPublicKey) ∧
    (pk.length = 48 → sig.length = 96 →
      api.g1IsOnCurve ((api.g1FromCompressed pk).getD api.g1Identity) = true →
      api.g1IsIdentity ((api.g1FromCompressed pk).getD api.g1Identity) = false →
      msg ≠ [] → api.g2FromCompressed sig = none →
      api.pairingSigOnG2 ((api.g1FromCompressed pk).getD api.g1Identity)
        (api.hashToG2 msg dst) api.g2Identity = false →
      verify_on_g2 api pk msg sig dst = .error .SignatureFailedVerification) ∧
    (pk.length = 96 → sig.length = 48 → api.g2FromCompressed pk = none →
      api.g2IsIdentity api.g2Identity = true →
      verify_on_g1 api pk msg sig dst = .error .InvalidPublicKey) ∧
    (pk.length = 96 → sig.length = 48 →
      api.g2IsIdentity ((api.g2FromCompressed pk).getD api.g2Identity) = true →
      verify_on_g1 api pk msg sig dst = .error .InvalidPublicKey) ∧
    (pk.length = 96 → sig.length = 48 →
      api.g2IsOnCurve ((api.g2FromCompressed pk).getD api.g2Identity) = false →
      verify_on_g1 api pk msg sig dst = .error .InvalidPublicKey) ∧
    (pk.length = 96 → sig.length = 48 →
      api.g2IsOnCurve ((api.g2FromCompressed pk).getD api.g2Identity) = true →
      api.g2IsIdentity ((api.g2FromCompressed pk).getD api.g2Identity) = false →
      msg ≠ [] → api.g1FromCompressed sig = none →
      api.pairingSigOnG1 ((api.g2FromCompressed pk).getD api.g2Identity)
        (api.hashToG1 msg dst) api.g1Identity = false →
      verify_on_g1 api pk msg sig dst = .error .SignatureFailedVerification) :=
  ⟨funnel_g2_decompression_failure api pk msg sig dst,
   funnel_g2_identity_key api pk msg sig dst,
   funnel_g2_off_curve_key api pk msg sig dst,
   funnel_g2_bad_signature api pk msg sig dst,
   funnel_g1_decompression_failure api pk msg sig dst,
   funnel_g1_identity_key api pk msg sig dst,
   funnel_g1_off_curve_key api pk msg sig dst,
   funnel_g1_bad_signature api pk msg sig dst⟩

/-- C6 witness: a 48-byte key that fails decompression under the concrete
primitives is rejected as `InvalidPublicKey`. -/
theorem decompression_identity_funnel_witness :
    verify_on_g2 toyApi (List.replicate 48 1) [0] g2IdentBytes DST_G2 =
      .error .InvalidPublicKey :=
  (decompression_identity_funnel toyApi (List.replicate 48 1) [0] g2IdentBytes DST_G2).1
    (by decide) (by decide) (by decide) (by decide)

/-- C7: when the randomness digest matches, the dispatch of `verify_beacon`
pairs each scheme with its hash group and domain-separation tag: both
pedersen schemes hash to G2 with `DST_G2`; `bls-unchained-on-g1` hashes to G1
but with `DST_G2` (the preserved legacy anomaly); `bls-unchained-g1-rfc9380`
hashes to G1 with `DST_G1`; and the two tag constants are byte-for-byte the
RFC-9380 BLS-signature suite strings. -/
theorem dst_selection_per_scheme (api : BlsApi G1 G2) (pk : List Nat) (b : Beacon)
    (h : api.sha256 b.signature = b.randomness) :
    (b.previous_signature ≠ [] →
      verify_beacon api .PedersenBlsChained pk b =
        verify_on_g2 api pk
          (api.sha256 (b.previous_signature ++ u64ToBeBytes b.round_number))
          b.signature DST_G2) ∧
    verify_beacon api .PedersenBlsUnchained pk b =
      verify_on_g2 api pk (api.sha256 (u64ToBeBytes b.round_number)) b.signature DST_G2 ∧
    verify_beacon api .UnchainedOnG1 pk b =
      verify_on_g1 api pk (api.sha256 (u64ToBeBytes b.round_number)) b.signature DST_G2 ∧
    verify_beacon api .UnchainedOnG1RFC9380 pk b =
      verify_on_g1 api pk (api.sha256 (u64ToBeBytes b.round_number)) b.signature DST_G1 ∧
    DST_G1 = "BLS_SIG_BLS12381G1_XMD:SHA-256_SSWU_RO_NUL_" ∧
    DST_G2 = "BLS_SIG_BLS12381G2_XMD:SHA-256_SSWU_RO_NUL_" := by
  refine ⟨fun hps => ?_, ?_, ?_, ?_, rfl, rfl⟩ <;>
    unfold verify_beacon <;> rw [if_neg (not_not_intro h)] <;>
    simp [chained_beacon_message, unchained_beacon_message, List.isEmpty_iff, *]

/-- C7 witness: the legacy scheme dispatched at a concrete beacon lands in the
G1 pairing check with the G2 tag. -/
theorem dst_selection_per_scheme_witness :
    verify_beacon okApi .UnchainedOnG1 (List.replicate 96 1)
      { round_number := 2, randomness := List.replicate 32 0,
        signature := List.replicate 48 3, previous_signature := [] } =
      verify_on_g1 okApi (List.replicate 96 1)
        (okApi.sha256 (u64ToBeBytes 2)) (List.replicate 48 3) DST_G2 :=
  (dst_selection_per_scheme okApi (List.replicate 96 1)
    { round_number := 2, randomness := List.replicate 32 0,
      signature := List.replicate 48 3, previous_signature := [] } (by decide)).2.2.1

/-- C8: deserialization maps exactly the four tag strings to the four
`SchemeID` variants, and every other string is rejected with an error naming
the offending tag and listing the four accepted values. -/
theorem scheme_id_deserialization :
    schemeIdFromString "pedersen-bls-chained" = .ok .PedersenBlsChained ∧
    schemeIdFromString "pedersen-bls-unchained" = .ok .PedersenBlsUnchained ∧
    schemeIdFromString "bls-unchained-on-g1" = .ok .UnchainedOnG1 ∧
    schemeIdFromString "bls-unchained-g1-rfc9380" = .ok .UnchainedOnG1RFC9380 ∧
    ∀ s : String, s ≠ "pedersen-bls-chained" → s ≠ "pedersen-bls-unchained" →
      s ≠ "bls-unchained-on-g1" → s ≠ "bls-unchained-g1-rfc9380" →
      schemeIdFromString s =
        .error (s, ["pedersen-bls-chained", "pedersen-bls-unchained",
                    "bls-unchained-on-g1", "bls-unchained-g1-rfc9380"]) := by
  refine ⟨by decide, by decide, by decide, by decide, fun s h1 h2 h3 h4 => ?_⟩
  simp [schemeIdFromString, h1, h2, h3, h4]

/-- C8 witness: an unknown tag is rejected with the list of the four accepted
values. -/
theorem scheme_id_deserialization_witness :
    schemeIdFromString "drand" =
      .error ("drand", ["pedersen-bls-chained", "pedersen-bls-unchained",
                        "bls-unchained-on-g1", "bls-unchained-g1-rfc9380"]) :=
  scheme_id_deserialization.2.2.2.2 "drand" (by decide) (by decide) (by decide) (by decide)

/-- C9: when SHA-256 always yields a 32-byte digest (as the real primitive
does), `verify_beacon` never returns `EmptyMessage`: every message it passes
to the pairing checks is such a digest, hence non-empty, so the
`EmptyMessage` branch of both checks is unreachable from `verify_beacon`. -/
theorem verify_beacon_never_empty_message (api : BlsApi G1 G2)
    (hsha : ∀ m, (api.sha256 m).length = 32) (scheme_id : SchemeID)
    (pk : List Nat) (b : Beacon) :
    verify_beacon api scheme_id pk b ≠ .error .EmptyMessage := by
  have hne : ∀ m, api.sha256 m ≠ [] := by
    intro m hm
    have h32 := hsha m
    rw [hm] at h32
    simp at h32
  unfold verify_beacon
  split_ifs with hr
  · simp
  · cases scheme_id
    · unfold chained_beacon_message
      split_ifs with hp
      · simp
      · exact verify_on_g2_never_empty_message api pk _ b.signature DST_G2 (hne _)
    · exact verify_on_g2_never_empty_message api pk _ b.signature DST_G2 (hne _)
    · exact verify_on_g1_never_empty_message api pk _ b.signature DST_G2 (hne _)
    · exact verify_on_g1_never_empty_message api pk _ b.signature DST_G1 (hne _)

/-- C9 witness: the theorem applied at concrete primitives whose SHA-256
always returns 32 zero bytes. -/
theorem verify_beacon_never_empty_message_witness :
    verify_beacon toyApi .PedersenBlsChained []
      { round_number := 0, randomness := [], signature := [], previous_signature := [] } ≠
      .error .EmptyMessage :=
  verify_beacon_never_empty_message toyApi (fun m => by simp [toyApi])
    .PedersenBlsChained []
    { round_number := 0, randomness := [], signature := [], previous_signature := [] }

/-- C10: the `verify_beacon` of `src/scheme.rs` never consults the randomness
field: changing only the randomness bytes never changes the result, so a
beacon accepted by that entry point stays accepted with arbitrary randomness
not equal to SHA-256 of its signature. -/
theorem scheme_rs_verify_beacon_ignores_randomness (api : BlsApi G1 G2)
    (scheme_id : SchemeID) (pk : List Nat) (b : Beacon) (r : List Nat) :
    Scheme.verify_beacon api scheme_id pk { b with randomness := r } =
      Scheme.verify_beacon api scheme_id pk b ∧
    (Scheme.verify_beacon api scheme_id pk b = .ok () →
      Scheme.verify_beacon api scheme_id pk { b with randomness := r } = .ok ()) := by
  have h : Scheme.verify_beacon api scheme_id pk { b with randomness := r } =
      Scheme.verify_beacon api scheme_id pk b := by
    cases scheme_id <;> rfl
  exact ⟨h, fun hok => h.trans hok⟩

/-- C10 witness: a beacon accepted by the `src/scheme.rs` entry point is still
accepted after its randomness is replaced by the byte string `[9]`, which is
not SHA-256 of anything (it is not even 32 bytes long). -/
theorem scheme_rs_verify_beacon_ignores_randomness_witness :
    Scheme.verify_beacon okApi .PedersenBlsUnchained (List.replicate 48 1)
      { round_number := 1, randomness := [9], signature := List.replicate 96 2,
        previous_signature := [] } = .ok () :=
  (scheme_rs_verify_beacon_ignores_randomness okApi .PedersenBlsUnchained
    (List.replicate 48 1)
    { round_number := 1, randomness := [], signature := List.replicate 96 2,
      previous_signature := [] } [9]).2 rfl

end DrandClient
